import Mathlib

/-!
# check_ntp: fixed-point codec, estimators and classifier

A shallow embedding of `plugins/check_ntp.c`; the line numbers in the comments are those of
that file.

Conventions of the embedding.

* A C `double` is an exact rational; the only non-finite values that the embedded code can
  create are the results of a division by zero, kept apart in `Dbl`.
* A multi-byte message field is represented by the number its bytes denote in network byte
  order, so `ntohs`/`ntohl` of a field read, and `htons`/`htonl` of a value stored, are the
  identity on that number, and a raw field is non-zero exactly when that number is.
* `unsigned long` (the type of `EPOCHDIFF`) and `long` (the type of `tv_sec`) have `W` bits;
  `W` is a parameter of the definitions whose value depends on it.
* Network input (the replies read from the socket) and the C library's `strtod` are parameters.
-/

namespace CheckNtp

/-! ## Constants and macros -/

/-- Number of times each request is performed to get an average (`AVG_NUM`). -/
def AVG_NUM : Nat := 4

/-- Maximal size of the data of a control message (`MAX_CM_SIZE`). -/
def MAX_CM_SIZE : Nat := 468

/-- Selection status "included" of a peer (`PEER_INCLUDED`). -/
def PEER_INCLUDED : Nat := 0x04

/-- Selection status "current synchronisation source" of a peer (`PEER_SYNCSOURCE`). -/
def PEER_SYNCSOURCE : Nat := 0x06

/-- The clock selection status of a peer status word: `PEER_SEL(x) = (x&0x07)`. -/
def PEER_SEL (x : Nat) : Nat := x &&& 0x07

/-- Seconds between 1900-01-01 and 1970-01-01 (`EPOCHDIFF`, an `unsigned long`). -/
def EPOCHDIFF : Nat := 0x83aa7e80

/-! ## Data model -/

/-- A 32-bit NTP fixed-point field: `l16` is `ntohs(L16(x))`, the number denoted by its first
two bytes, and `r16` is `ntohs(R16(x))`, the number denoted by its last two bytes. -/
structure ntp32 where
  l16 : Nat
  r16 : Nat
deriving DecidableEq, Repr

/-- A 64-bit NTP fixed-point field: `l32` is `ntohl(L32(n))`, the number denoted by its first
four bytes, and `r32` is `ntohl(R32(n))`, the number denoted by its last four bytes. The field
is zero as a `uint64_t` exactly when both halves are zero. -/
structure ntp64 where
  l32 : Nat
  r32 : Nat
deriving DecidableEq, Repr

/-- The C `struct timeval`. -/
structure timeval where
  tv_sec : Int
  tv_usec : Int
deriving DecidableEq, Repr

/-- The structure `ntp_message`: everything in an ntp request or response. -/
structure ntp_message where
  flags : Nat
  stratum : Nat
  poll : Int
  precision : Int
  rtdelay : ntp32
  rtdisp : ntp32
  refid : Nat
  refts : ntp64
  origts : ntp64
  rxts : ntp64
  txts : ntp64
deriving DecidableEq, Repr

/-- The structure `ntp_control_message`; `data` holds the bytes of the data field. -/
structure ntp_control_message where
  flags : Nat
  op : Nat
  seq : Nat
  status : Nat
  assoc : Nat
  offset : Nat
  count : Nat
  data : List Nat
deriving DecidableEq, Repr

/-- The structure `ntp_assoc_status_pair`, an entry of the data of a READSTAT response. Both
members are the 16-bit values as the program reads them from memory: `jitter_request` applies
`PEER_SEL` to `status` and copies `assoc` without any byte swap. -/
structure ntp_assoc_status_pair where
  assoc : Nat
  status : Nat
deriving DecidableEq, Repr

/-- A C `double` result: a finite value (an exact rational), an infinity (`neg` tells its
sign), or the not-a-number produced by `0.0/0`. -/
inductive Dbl where
  | fin (q : ℚ)
  | inf (neg : Bool)
  | nan
deriving DecidableEq, Repr

namespace Dbl

/-- The C division `x / n` of a finite double by an `int` converted to double: a division by
zero gives an infinity for a non-zero dividend and not-a-number for `0.0`. -/
def div (x : ℚ) (n : Nat) : Dbl :=
  if n = 0 then (if x = 0 then nan else inf (decide (x < 0))) else fin (x / (n : ℚ))

/-- The C comparison `x > y` against a finite double; it is false for not-a-number. -/
def gt (x : Dbl) (y : ℚ) : Bool :=
  match x with
  | fin q => decide (q > y)
  | inf neg => !neg
  | nan => false

/-- The C comparison `x == y` against a finite double; it is false for not-a-number. -/
def eq (x : Dbl) (y : ℚ) : Bool :=
  match x with
  | fin q => decide (q = y)
  | inf _ => false
  | nan => false

end Dbl

/-! ## Fixed-point codec -/

/-- Subtraction of two `unsigned long` values of `W` bits: the difference modulo `2^W`. -/
def ulong_sub (W : Nat) (a b : Nat) : Nat :=
  (((a : Int) - (b : Int)) % (2 ^ W : Int)).toNat

/-- Conversion of a non-negative double to `uint32_t`: the fraction is discarded. -/
def to_uint32 (x : ℚ) : Nat :=
  (Int.floor x).toNat % 2 ^ 32

/-- Line 144. The macro `NTP32asDOUBLE(x) = ntohs(L16(x)) + (double)ntohs(R16(x))/65536.0`. -/
def NTP32asDOUBLE (x : ntp32) : ℚ :=
  (x.l16 : ℚ) + (x.r16 : ℚ) / 65536

/-- Lines 147-150. The macro `NTP64asDOUBLE(n)`: zero for the zero field, and otherwise
`(ntohl(L32(n))-EPOCHDIFF) + (.00000001*(0.5+(double)(ntohl(R32(n))/42.94967296)))`, where the
subtraction is done in `unsigned long`. -/
def NTP64asDOUBLE (W : Nat) (n : ntp64) : ℚ :=
  if n.l32 ≠ 0 ∨ n.r32 ≠ 0 then
    (ulong_sub W n.l32 EPOCHDIFF : ℚ)
      + (1 / 100000000) * (1 / 2 + (n.r32 : ℚ) / (4294967296 / 100000000))
  else 0

/-- Line 153. The macro `TVasDOUBLE(x) = (double)(x.tv_sec+(0.000001*x.tv_usec))`. -/
def TVasDOUBLE (x : timeval) : ℚ :=
  (x.tv_sec : ℚ) + (1 / 1000000) * (x.tv_usec : ℚ)

/-- Lines 165-171. The macro `TVtoNTP64(t,n)`: the zero field for the zero time, and otherwise
`L32(n) = htonl(t.tv_sec + EPOCHDIFF)` and `R32(n) = htonl((4294.967296*t.tv_usec)+.5)`. The
argument of `htonl` is a `uint32_t`, so the sum is reduced modulo `2^32` whatever the width of
`unsigned long` is. -/
def TVtoNTP64 (t : timeval) : ntp64 :=
  if t.tv_usec = 0 ∧ t.tv_sec = 0 then { l32 := 0, r32 := 0 }
  else
    { l32 := ((t.tv_sec + (EPOCHDIFF : Int)) % (2 ^ 32 : Int)).toNat
      r32 := to_uint32 ((4294967296 / 1000000 : ℚ) * (t.tv_usec : ℚ) + 1 / 2) }

/-- Line 176. The macro `SIZEOF_NTPCM(m) = (12+ntohs(m.count)+((m.count)?4-(ntohs(m.count)%4):0))`. -/
def SIZEOF_NTPCM (m : ntp_control_message) : Nat :=
  12 + m.count + (if m.count ≠ 0 then 4 - (m.count % 4) else 0)

/-! ## Offset estimator -/

/-- Lines 186-194. The function `calc_offset`: the offset of the local clock from one reply `m` received at
local time `t`. -/
def calc_offset (W : Nat) (m : ntp_message) (t : timeval) : ℚ :=
  let client_tx := NTP64asDOUBLE W m.origts
  let peer_rx := NTP64asDOUBLE W m.rxts
  let peer_tx := NTP64asDOUBLE W m.txts
  let client_rx := TVasDOUBLE t
  let rtdelay := NTP32asDOUBLE m.rtdelay
  ((1 / 2) * ((peer_tx - client_rx) + (peer_rx - client_tx))) - rtdelay

/-- Lines 280-292. The loop of `offset_request`: `runs` further exchanges starting with exchange number `i`;
`exchange i` is the reply read in exchange `i` together with the time of its receipt, and
`avg_offset` is the running sum. -/
def offset_loop (W : Nat) (exchange : Nat → ntp_message × timeval) :
    Nat → Nat → ℚ → ℚ
  | 0, _, avg_offset => avg_offset
  | runs + 1, i, avg_offset =>
    let next_offset := calc_offset W (exchange i).1 (exchange i).2
    offset_loop W exchange runs (i + 1) (avg_offset + next_offset)

/-- Lines 274-296. The function `offset_request`: `AVG_NUM` exchanges, then `avg_offset/=AVG_NUM`. -/
def offset_request (W : Nat) (exchange : Nat → ntp_message × timeval) : ℚ :=
  offset_loop W exchange AVG_NUM 0 0 / (AVG_NUM : ℚ)

/-! ## Jitter estimator -/

/-- The C library's `strchr`: the rest of the string from the first occurrence of `ch` on, or
nothing (`NULL`) when `ch` does not occur. -/
def strchr : List Char → Char → Option (List Char)
  | [], _ => none
  | c :: cs, ch => if c = ch then some (c :: cs) else strchr cs ch

/-- The local variables of `jitter_request`, and in `sent` the associations of the READVAR
requests written to the socket so far, in the order of writing. -/
structure jitter_state where
  num_candidates : Nat
  syncsource_found : Nat
  min_peer_sel : Nat
  num_selected : Nat
  num_valid : Nat
  rval : ℚ
  jitter : ℚ
  sent : List Nat
deriving DecidableEq, Repr

/-- Lines 387-391. The values that `jitter_request` gives its local variables in their declarations. -/
def jitter_init : jitter_state :=
  { num_candidates := 0, syncsource_found := 0, min_peer_sel := PEER_INCLUDED,
    num_selected := 0, num_valid := 0, rval := 0, jitter := -1, sent := [] }

/-- Lines 433-441. The first loop of `jitter_request` over the peers: it counts the candidates and raises
`min_peer_sel` to `PEER_SYNCSOURCE` when a synchronisation source is found. -/
def find_syncsource : List ntp_assoc_status_pair → jitter_state → jitter_state
  | [], s => s
  | p :: ps, s =>
    if PEER_SEL p.status ≥ PEER_INCLUDED then
      let s1 := { s with num_candidates := s.num_candidates + 1 }
      if PEER_SEL p.status ≥ PEER_SYNCSOURCE then
        find_syncsource ps { s1 with syncsource_found := 1, min_peer_sel := PEER_SYNCSOURCE }
      else find_syncsource ps s1
    else find_syncsource ps s

/-- Lines 451-483. The body of the inner loop of `jitter_request` for a peer that passed the selection test:
a READVAR request for the peer is written, the reply is read and the jitter value is parsed.
Here `strtod str` is the value and the number of characters consumed by the C library's
`strtod` on `str`, and `reply k` is the string found at `req.data` after reply number `k` has
been read. When the reply has no `=`, `strchr` returns `NULL` and `strtod` is called on
`NULL + 1`: the run ends there, which is the `Except.error` result. -/
def jitter_query (strtod : List Char → ℚ × Nat) (reply : Nat → List Char)
    (p : ntp_assoc_status_pair) (s : jitter_state) : Except jitter_state jitter_state :=
  let s1 := { s with sent := s.sent ++ [p.assoc] }
  match strchr (reply s1.num_selected) '=' with
  | none => Except.error s1
  | some at_eq =>
    let startofvalue := at_eq.drop 1
    let parsed := strtod startofvalue
    let s2 := { s1 with jitter := parsed.1, num_selected := s1.num_selected + 1 }
    if parsed.1 = 0 ∧ parsed.2 = 0 then Except.ok s2
    else Except.ok { s2 with num_valid := s2.num_valid + 1, rval := s2.rval + parsed.1 }

/-- Lines 448-485. The inner loop of `jitter_request`: one round over the peers, querying those whose
selection status is at least `min_peer_sel`. -/
def jitter_round (strtod : List Char → ℚ × Nat) (reply : Nat → List Char) :
    List ntp_assoc_status_pair → jitter_state → Except jitter_state jitter_state
  | [], s => Except.ok s
  | p :: ps, s =>
    if PEER_SEL p.status ≥ s.min_peer_sel then
      match jitter_query strtod reply p s with
      | Except.error e => Except.error e
      | Except.ok s1 => jitter_round strtod reply ps s1
    else jitter_round strtod reply ps s

/-- Lines 446-489. The outer loop of `jitter_request`: `runs` rounds over the peers. -/
def jitter_runs (strtod : List Char → ℚ × Nat) (reply : Nat → List Char)
    (peers : List ntp_assoc_status_pair) : Nat → jitter_state → Except jitter_state jitter_state
  | 0, s => Except.ok s
  | runs + 1, s =>
    match jitter_round strtod reply peers s with
    | Except.error e => Except.error e
    | Except.ok s1 => jitter_runs strtod reply peers runs s1

/-- What a call of `jitter_request` does: the associations of the READVAR requests it wrote,
and the value it returns, if it returns. -/
structure jitter_outcome where
  sent : List Nat
  value : Option Dbl
deriving DecidableEq, Repr

/-- Lines 427-429. The peers that `jitter_request` copies out of a READSTAT response: `count` is the count
field of the response and `peer_at i` is the entry read at `req.data + 4*i`. -/
def peer_list (count : Nat) (peer_at : Nat → ntp_assoc_status_pair) :
    List ntp_assoc_status_pair :=
  let npeers := count / 4
  (List.range npeers).map peer_at

/-- Lines 386-497. The function `jitter_request`; `count` and `peer_at` describe the READSTAT response (see
`peer_list`), `reply` the READVAR replies and `strtod` the C library (see `jitter_query`). -/
def jitter_request (strtod : List Char → ℚ × Nat) (count : Nat)
    (peer_at : Nat → ntp_assoc_status_pair) (reply : Nat → List Char) : jitter_outcome :=
  let peers := peer_list count peer_at
  let s1 := find_syncsource peers jitter_init
  match jitter_runs strtod reply peers AVG_NUM s1 with
  | Except.error e => { sent := e.sent, value := none }
  | Except.ok s2 => { sent := s2.sent, value := some (Dbl.div s2.rval s2.num_valid) }

/-- The decimal digits at the head of a string: their value added to `10^k * acc` for the `k`
digits found, and `n` plus their number. -/
def leading_digits : List Char → Nat → Nat → Nat × Nat
  | [], acc, n => (acc, n)
  | c :: cs, acc, n =>
    if c.isDigit then leading_digits cs (10 * acc + (c.toNat - 48)) (n + 1) else (acc, n)

/-- A `strtod` for plain decimal notation (white space, an optional sign, digits with an
optional fraction): the value and the number of characters consumed, both zero when no
number is found, as the C standard has it. -/
def strtod_decimal (str : List Char) : ℚ × Nat :=
  let ws := (str.takeWhile Char.isWhitespace).length
  let s := str.drop ws
  let sign := if s.head? = some '-' ∨ s.head? = some '+' then 1 else 0
  let body := s.drop sign
  let ip := leading_digits body 0 0
  let rest := body.drop ip.2
  let point := if rest.head? = some '.' then 1 else 0
  let fp := if point = 1 then leading_digits (rest.drop 1) 0 0 else (0, 0)
  if ip.2 + fp.2 = 0 then (0, 0)
  else
    let v : ℚ := (ip.1 : ℚ) + (fp.1 : ℚ) / (10 : ℚ) ^ fp.2
    (if s.head? = some '-' then -v else v, ws + sign + ip.2 + (if fp.2 = 0 then 0 else point + fp.2))

/-! ## Classifier -/

/-- Modelled from the spec: the status codes `STATE_OK`, `STATE_WARNING`, `STATE_CRITICAL`
and `STATE_UNKNOWN` of `common.h`, which is not among the sources. -/
inductive state where
  | STATE_OK
  | STATE_WARNING
  | STATE_CRITICAL
  | STATE_UNKNOWN
deriving DecidableEq, Repr

open state

/-- Modelled from the spec: `max_state` of `utils.c`, which is not among the sources; it
returns the more severe of its two arguments, where critical is the most severe, then
warning, then ok. The spec does not rank unknown; `main` never passes it. -/
def max_state (a b : state) : state :=
  if a = STATE_CRITICAL ∨ b = STATE_CRITICAL then STATE_CRITICAL
  else if a = STATE_WARNING ∨ b = STATE_WARNING then STATE_WARNING
  else if a = STATE_OK ∨ b = STATE_OK then STATE_OK
  else STATE_UNKNOWN

/-- The option variables that `process_arguments` sets. -/
structure config where
  owarn : ℚ
  ocrit : ℚ
  do_jitter : Bool
  jwarn : ℚ
  jcrit : ℚ
deriving DecidableEq, Repr

/-- What `main` computes: the exit status, the two values printed, and how often it called
`jitter_request`. -/
structure main_outcome where
  result : state
  offset : ℚ
  jitter : Dbl
  jitter_requests : Nat
deriving DecidableEq, Repr

/-- Lines 610-616. The classification of the offset alone, the first conditional of `main`. -/
def offset_state (c : config) (offset : ℚ) : state :=
  if offset > c.ocrit then STATE_CRITICAL
  else if offset > c.owarn then STATE_WARNING
  else STATE_OK

/-- Lines 609-634. The function `main` after the arguments are processed: `offset_value` is the value
returned by the call of `offset_request`, and `jitter_value` the value that a call of
`jitter_request` returns. -/
def main (c : config) (offset_value : ℚ) (jitter_value : Dbl) : main_outcome :=
  let offset := offset_value
  let result := offset_state c offset
  if c.do_jitter then
    let jitter := jitter_value
    let result :=
      if jitter.gt c.jcrit then max_state result STATE_CRITICAL
      else if jitter.gt c.jwarn then max_state result STATE_WARNING
      else if jitter.eq (-1) ∧ result = STATE_OK then STATE_UNKNOWN
      else result
    { result := result, offset := offset, jitter := jitter, jitter_requests := 1 }
  else
    { result := result, offset := offset, jitter := Dbl.fin 0, jitter_requests := 0 }

/-! ## Wire message construction -/

/-- Mask of the leap indicator in the flags byte (`LI_MASK`). -/
def LI_MASK : Nat := 0xc0

/-- The macro `LI(x) = ((x&LI_MASK)>>6)`. -/
def LI (x : Nat) : Nat := (x &&& LI_MASK) >>> 6

/-- The macro `LI_SET(x,y)`, the assignment `x |= ((y<<6)&LI_MASK)` to a `uint8_t`. -/
def LI_SET (x y : Nat) : Nat := (x ||| ((y <<< 6) &&& LI_MASK)) % 256

/-- Leap indicator "no warning" (`LI_NOWARNING`). -/
def LI_NOWARNING : Nat := 0x00

/-- Leap indicator "alarm" (`LI_ALARM`). -/
def LI_ALARM : Nat := 0x03

/-- Mask of the version in the flags byte (`VN_MASK`). -/
def VN_MASK : Nat := 0x38

/-- The macro `VN(x) = ((x&VN_MASK)>>3)`. -/
def VN (x : Nat) : Nat := (x &&& VN_MASK) >>> 3

/-- The macro `VN_SET(x,y)`, the assignment `x |= ((y<<3)&VN_MASK)` to a `uint8_t`. -/
def VN_SET (x y : Nat) : Nat := (x ||| ((y <<< 3) &&& VN_MASK)) % 256

/-- The version of control requests (`VN_RESERVED`). -/
def VN_RESERVED : Nat := 0x02

/-- Mask of the mode in the flags byte (`MODE_MASK`). -/
def MODE_MASK : Nat := 0x07

/-- The macro `MODE(x) = (x&MODE_MASK)`. -/
def MODE (x : Nat) : Nat := x &&& MODE_MASK

/-- The macro `MODE_SET(x,y)`, the assignment `x |= (y&MODE_MASK)` to a `uint8_t`. -/
def MODE_SET (x y : Nat) : Nat := (x ||| (y &&& MODE_MASK)) % 256

/-- Mode "client" (`MODE_CLIENT`). -/
def MODE_CLIENT : Nat := 0x03

/-- Mode "control message" (`MODE_CONTROLMSG`). -/
def MODE_CONTROLMSG : Nat := 0x06

/-- The response bit of the op byte (`REM_RESP`). -/
def REM_RESP : Nat := 0x80

/-- The error bit of the op byte (`REM_ERROR`). -/
def REM_ERROR : Nat := 0x40

/-- The more bit of the op byte (`REM_MORE`). -/
def REM_MORE : Nat := 0x20

/-- Mask of the opcode in the op byte (`OP_MASK`). -/
def OP_MASK : Nat := 0x1f

/-- The macro `OP_SET(x,y)`, the assignment `x |= (y&OP_MASK)` to a `uint8_t`. -/
def OP_SET (x y : Nat) : Nat := (x ||| (y &&& OP_MASK)) % 256

/-- Opcode "read status" (`OP_READSTAT`). -/
def OP_READSTAT : Nat := 0x01

/-- Opcode "read variables" (`OP_READVAR`). -/
def OP_READVAR : Nat := 0x02

/-- Conversion of a value to `int8_t`: the value modulo 256, read as a signed byte. -/
def to_int8 (x : Nat) : Int :=
  if x % 256 < 128 then ((x % 256 : Nat) : Int) else ((x % 256 : Nat) : Int) - 256

/-- The call `memset(p, 0, sizeof(ntp_message))`: every member of the message is zero,
whatever the message held. -/
def memset_ntp_message (_p : ntp_message) : ntp_message :=
  { flags := 0, stratum := 0, poll := 0, precision := 0,
    rtdelay := { l16 := 0, r16 := 0 }, rtdisp := { l16 := 0, r16 := 0 }, refid := 0,
    refts := { l32 := 0, r32 := 0 }, origts := { l32 := 0, r32 := 0 },
    rxts := { l32 := 0, r32 := 0 }, txts := { l32 := 0, r32 := 0 } }

/-- Lines 258-272. The function `setup_request` on the message `p`; `now` is the time that `gettimeofday`
returns. -/
def setup_request (p : ntp_message) (now : timeval) : ntp_message :=
  let p0 := memset_ntp_message p
  let p1 := { p0 with flags := LI_SET p0.flags LI_ALARM }
  let p2 := { p1 with flags := VN_SET p1.flags 4 }
  let p3 := { p2 with flags := MODE_SET p2.flags MODE_CLIENT }
  let p4 := { p3 with poll := 4 }
  let p5 := { p4 with precision := to_int8 0xfa }
  let p6 := { p5 with rtdelay := { p5.rtdelay with l16 := 1 } }
  let p7 := { p6 with rtdisp := { p6.rtdisp with l16 := 1 } }
  { p7 with txts := TVtoNTP64 now }

/-- The call `memset(p, 0, sizeof(ntp_control_message))`: every member of the message and
each of the `MAX_CM_SIZE` bytes of its data is zero, whatever the message held. -/
def memset_ntp_control_message (_p : ntp_control_message) : ntp_control_message :=
  { flags := 0, op := 0, seq := 0, status := 0, assoc := 0, offset := 0, count := 0,
    data := List.replicate MAX_CM_SIZE 0 }

/-- Lines 374-383. The function `setup_control_request` on the message `p`; `opcode` is a `uint8_t` and `seq`
a `uint16_t`, and `p->seq = htons(seq)` stores the number `seq`. -/
def setup_control_request (p : ntp_control_message) (opcode seq : Nat) : ntp_control_message :=
  let p0 := memset_ntp_control_message p
  let p1 := { p0 with flags := LI_SET p0.flags LI_NOWARNING }
  let p2 := { p1 with flags := VN_SET p1.flags VN_RESERVED }
  let p3 := { p2 with flags := MODE_SET p2.flags MODE_CONTROLMSG }
  let p4 := { p3 with op := OP_SET p3.op (opcode % 256) }
  { p4 with seq := seq % 65536 }

/-- The size of the structure `ntp_control_message`: its two 8-bit members, its five 16-bit
members and the `MAX_CM_SIZE` bytes of data. -/
def sizeof_ntp_control_message : Nat :=
  1 + 1 + 2 + 2 + 2 + 2 + 2 + MAX_CM_SIZE

/-- The size of the structure `ntp_assoc_status_pair`: two 16-bit members. -/
def sizeof_ntp_assoc_status_pair : Nat := 2 + 2

/-- Line 409. The READSTAT request of `jitter_request`: `setup_control_request(&req, OP_READSTAT, 1)`. -/
def readstat_request (req : ntp_control_message) : ntp_control_message :=
  setup_control_request req OP_READSTAT 1

/-- The C library's `strncpy(dest, src, n)` on a byte buffer, for a source of at least `n`
bytes: the first `n` bytes of the buffer become those of the source. -/
def strncpy (dest : List Nat) (src : List Char) (n : Nat) : List Nat :=
  (src.take n).map Char.toNat ++ dest.drop n

/-- Lines 451-459. The READVAR request of `jitter_request` for the association `assoc`: the request is set up
with `OP_READVAR` and sequence 2, then it gets the association, the data `jitter` and the
count 6. -/
def readvar_request (req : ntp_control_message) (assoc : Nat) : ntp_control_message :=
  let r0 := setup_control_request req OP_READVAR 2
  let r1 := { r0 with assoc := assoc }
  let r2 := { r1 with data := strncpy r1.data "jitter".toList 6 }
  { r2 with count := 6 }

/-- Lines 420-422 and 464-466. The length that `jitter_request` passes to `read` for a reply: the count of the request is
set to `MAX_CM_SIZE` and `SIZEOF_NTPCM(req)` is taken. -/
def receive_length (req : ntp_control_message) : Nat :=
  SIZEOF_NTPCM { req with count := MAX_CM_SIZE }

/-! ## Definitions used to state the properties -/

/-- The wire size of a control message as the spec words it: 12 plus `count`, rounded up to a
multiple of 4. -/
def padded_wire_size (count : Nat) : Nat :=
  (12 + count + 3) / 4 * 4

/-- The peers to query as the spec words it: the peers of selection status at least 6 if
there is one, and otherwise the peers of selection status at least 4. -/
def queried_peers (peers : List ntp_assoc_status_pair) : List ntp_assoc_status_pair :=
  if ∃ p ∈ peers, PEER_SEL p.status ≥ 6 then
    peers.filter (fun p => decide (PEER_SEL p.status ≥ 6))
  else peers.filter (fun p => decide (PEER_SEL p.status ≥ 4))

/-- The sample of a reply as the spec words it: the value parsed after the first `=`, and
no sample when no character is parsed there. -/
def valid_sample (strtod : List Char → ℚ × Nat) (payload : List Char) : Option ℚ :=
  match strchr payload '=' with
  | none => none
  | some at_eq =>
    if (strtod (at_eq.drop 1)).2 = 0 then none else some (strtod (at_eq.drop 1)).1

/-- The valid samples among the replies number `first` to `first + n - 1`. -/
def valid_samples (strtod : List Char → ℚ × Nat) (reply : Nat → List Char) (first n : Nat) :
    List ℚ :=
  (List.range' first n).filterMap (fun k => valid_sample strtod (reply k))

/-- The valid samples of a run of `jitter_request`: those among the replies to the
`AVG_NUM` rounds of queries to `queried_peers`. -/
def run_samples (strtod : List Char → ℚ × Nat) (count : Nat)
    (peer_at : Nat → ntp_assoc_status_pair) (reply : Nat → List Char) : List ℚ :=
  valid_samples strtod reply 0 (AVG_NUM * (queried_peers (peer_list count peer_at)).length)

/-- The queries of `jitter_query` to every peer of a list in turn: a round of
`jitter_round` over peers that all pass the selection test. -/
def query_all (strtod : List Char → ℚ × Nat) (reply : Nat → List Char) :
    List ntp_assoc_status_pair → jitter_state → Except jitter_state jitter_state
  | [], s => Except.ok s
  | p :: ps, s =>
    match jitter_query strtod reply p s with
    | Except.error e => Except.error e
    | Except.ok s1 => query_all strtod reply ps s1

/-- Whether an entry of the peer list lies inside the data field: entry number `i` occupies
the bytes `4*i` to `4*i + 3` of the `MAX_CM_SIZE` bytes of data. -/
def entry_in_data (i : Nat) : Bool :=
  decide (sizeof_ntp_assoc_status_pair * i + sizeof_ntp_assoc_status_pair ≤ MAX_CM_SIZE)

/-! ## Concrete inputs -/

/-- A reply whose timestamps are the representable values next to originate 100.0, receive
100.05 and transmit 100.06, with a round-trip delay next to 0.02. -/
def sample_reply : ntp_message :=
  { flags := 0x24, stratum := 2, poll := 4, precision := -20,
    rtdelay := { l16 := 0, r16 := 1311 }, rtdisp := { l16 := 0, r16 := 0 }, refid := 0,
    refts := { l32 := 0, r32 := 0 },
    origts := { l32 := 0x83aa7e80 + 100, r32 := 0 },
    rxts := { l32 := 0x83aa7e80 + 100, r32 := 214748365 },
    txts := { l32 := 0x83aa7e80 + 100, r32 := 257698038 } }

/-- The local time 100.02 at which `sample_reply` is received. -/
def sample_receipt : timeval := { tv_sec := 100, tv_usec := 20000 }

/-- Four exchanges whose offset samples are 0.01, 0.02, 0.03 and 0.04. -/
def steady_exchange (i : Nat) : ntp_message × timeval :=
  ({ flags := 0x24, stratum := 2, poll := 4, precision := -20,
     rtdelay := { l16 := 0, r16 := 0 }, rtdisp := { l16 := 0, r16 := 0 }, refid := 0,
     refts := { l32 := 0, r32 := 0 },
     origts := { l32 := 0x83aa7e80, r32 := 0 },
     rxts := { l32 := 0x83aa7e80 + 1, r32 := 0 },
     txts := { l32 := 0, r32 := 0 } },
   { tv_sec := 0, tv_usec := 980000 - 20000 * (i : Int) })

/-- Peer entries with the selection statuses 3, 4, 6, 4. -/
def peers_with_source (i : Nat) : ntp_assoc_status_pair :=
  { assoc := 100 + i, status := [3, 4, 6, 4].getD i 0 }

/-- Peer entries with the selection statuses 3, 1. -/
def low_tier_peers (i : Nat) : ntp_assoc_status_pair :=
  { assoc := 100 + i, status := [3, 1].getD i 0 }

/-- READVAR replies: a value, no value, a zero value, and a value from then on. -/
def sample_replies : Nat → List Char
  | 0 => "jitter=0.000123".toList
  | 1 => "jitter=".toList
  | 2 => "jitter=0".toList
  | _ => "jitter=0.000123".toList

/-- READVAR replies that all lack the value. -/
def empty_value_replies (_k : Nat) : List Char := "jitter=".toList

/-- READVAR replies whose data is the name `jitter` alone, without a `=`. -/
def no_value_replies (_k : Nat) : List Char := "jitter".toList

/-! ## Lemmas on the fixed-point codec -/

/-- `padded_wire_size c` is the least multiple of 4 that is at least `12 + c`. -/
theorem padded_wire_size_least (c : Nat) :
    4 ∣ padded_wire_size c ∧ 12 + c ≤ padded_wire_size c ∧
      ∀ k, 4 ∣ k → 12 + c ≤ k → padded_wire_size c ≤ k := by
  unfold padded_wire_size
  refine ⟨by omega, by omega, ?_⟩
  intro k hk hle
  obtain ⟨j, rfl⟩ := hk
  omega

/-- The `unsigned long` difference of `a` and `b ≤ a` is the plain difference. -/
theorem ulong_sub_of_le (W a b : Nat) (h : b ≤ a) (hlt : a - b < 2 ^ W) :
    ulong_sub W a b = a - b := by
  unfold ulong_sub
  have h1 : ((a : Int) - (b : Int)) = ((a - b : Nat) : Int) := (Int.ofNat_sub h).symm
  rw [h1, Int.emod_eq_of_lt (Int.ofNat_nonneg _) (by exact_mod_cast hlt)]
  exact Int.toNat_ofNat _

/-- The value of `NTP64asDOUBLE` on a field `s` seconds after 1970. -/
theorem NTP64asDOUBLE_sample (s r : Nat) (hs : s < 2 ^ 31) :
    NTP64asDOUBLE 64 { l32 := 0x83aa7e80 + s, r32 := r }
      = (s : ℚ) + 1 / 200000000 + (r : ℚ) / 4294967296 := by
  have hsub : ulong_sub 64 (0x83aa7e80 + s) EPOCHDIFF = s := by
    have hE : EPOCHDIFF = 0x83aa7e80 := rfl
    rw [ulong_sub_of_le 64 _ _ (by rw [hE]; omega) (by rw [hE]; omega), hE]
    omega
  have hne : (0x83aa7e80 + s ≠ 0 ∨ r ≠ 0) := Or.inl (by omega)
  simp only [NTP64asDOUBLE, if_pos hne, hsub]
  ring

/-- Four rounds of the loop of `offset_request` add four samples. -/
theorem offset_loop_four (W : Nat) (exchange : Nat → ntp_message × timeval) (a : ℚ) :
    offset_loop W exchange 4 0 a
      = a + calc_offset W (exchange 0).1 (exchange 0).2
          + calc_offset W (exchange 1).1 (exchange 1).2
          + calc_offset W (exchange 2).1 (exchange 2).2
          + calc_offset W (exchange 3).1 (exchange 3).2 := by
  simp [offset_loop]

/-- The offset sample of exchange `i` of `steady_exchange`. -/
theorem steady_sample (i : Nat) :
    calc_offset 64 (steady_exchange i).1 (steady_exchange i).2 = 1 / 100 + (i : ℚ) / 100 := by
  have ho := NTP64asDOUBLE_sample 0 0 (by norm_num)
  have hr := NTP64asDOUBLE_sample 1 0 (by norm_num)
  have hz : NTP64asDOUBLE 64 { l32 := 0, r32 := 0 } = 0 := by simp [NTP64asDOUBLE]
  simp only [calc_offset, steady_exchange, TVasDOUBLE, NTP32asDOUBLE]
  norm_num at ho hr
  rw [ho, hr, hz]
  push_cast
  ring

/-! ## Lemmas on the jitter estimator -/

/-- The first loop of `jitter_request` raises `min_peer_sel` exactly when a peer has the status of a synchronisation source, and leaves the accumulators alone. -/
theorem find_syncsource_spec (peers : List ntp_assoc_status_pair) (s : jitter_state) :
    (find_syncsource peers s).min_peer_sel
        = (if ∃ p ∈ peers, PEER_SEL p.status ≥ PEER_SYNCSOURCE then PEER_SYNCSOURCE
           else s.min_peer_sel) ∧
      (find_syncsource peers s).num_selected = s.num_selected ∧
      (find_syncsource peers s).num_valid = s.num_valid ∧
      (find_syncsource peers s).rval = s.rval ∧
      (find_syncsource peers s).sent = s.sent := by
  induction peers generalizing s with
  | nil => simp [find_syncsource]
  | cons p ps ih =>
    unfold find_syncsource
    by_cases h4 : PEER_SEL p.status ≥ PEER_INCLUDED
    · by_cases h6 : PEER_SEL p.status ≥ PEER_SYNCSOURCE
      · simp only [h4, h6, if_true]
        obtain ⟨a, b, c, d, e⟩ := ih
          { s with num_candidates := s.num_candidates + 1, syncsource_found := 1,
                   min_peer_sel := PEER_SYNCSOURCE }
        refine ⟨?_, b, c, d, e⟩
        rw [a]
        have hex : ∃ q ∈ p :: ps, PEER_SEL q.status ≥ PEER_SYNCSOURCE :=
          ⟨p, List.mem_cons_self _ _, h6⟩
        rw [if_pos hex]
        split_ifs <;> rfl
      · simp only [h4, h6, if_true, if_false]
        obtain ⟨a, b, c, d, e⟩ := ih { s with num_candidates := s.num_candidates + 1 }
        refine ⟨?_, b, c, d, e⟩
        rw [a]
        have hiff : (∃ q ∈ p :: ps, PEER_SEL q.status ≥ PEER_SYNCSOURCE)
            ↔ (∃ q ∈ ps, PEER_SEL q.status ≥ PEER_SYNCSOURCE) := by
          constructor
          · rintro ⟨q, hq, hs⟩
            rcases List.mem_cons.mp hq with rfl | hq
            · exact absurd hs h6
            · exact ⟨q, hq, hs⟩
          · rintro ⟨q, hq, hs⟩
            exact ⟨q, List.mem_cons_of_mem _ hq, hs⟩
        simp only [hiff]
    · have h6 : ¬ PEER_SEL p.status ≥ PEER_SYNCSOURCE := by
        unfold PEER_INCLUDED at h4
        unfold PEER_SYNCSOURCE
        omega
      simp only [h4, if_false]
      obtain ⟨a, b, c, d, e⟩ := ih s
      refine ⟨?_, b, c, d, e⟩
      rw [a]
      have hiff : (∃ q ∈ p :: ps, PEER_SEL q.status ≥ PEER_SYNCSOURCE)
          ↔ (∃ q ∈ ps, PEER_SEL q.status ≥ PEER_SYNCSOURCE) := by
        constructor
        · rintro ⟨q, hq, hs⟩
          rcases List.mem_cons.mp hq with rfl | hq
          · exact absurd hs h6
          · exact ⟨q, hq, hs⟩
        · rintro ⟨q, hq, hs⟩
          exact ⟨q, List.mem_cons_of_mem _ hq, hs⟩
      simp only [hiff]

/-- A query whose reply has no `=` ends the run. -/
theorem jitter_query_of_none (strtod : List Char → ℚ × Nat) (reply : Nat → List Char)
    (p : ntp_assoc_status_pair) (s : jitter_state)
    (h : strchr (reply s.num_selected) '=' = none) :
    jitter_query strtod reply p s = Except.error { s with sent := s.sent ++ [p.assoc] } := by
  simp only [jitter_query, h]

/-- A query whose reply has a `=` continues with the updated state. -/
theorem jitter_query_of_some (strtod : List Char → ℚ × Nat) (reply : Nat → List Char)
    (p : ntp_assoc_status_pair) (s : jitter_state) (at_eq : List Char)
    (h : strchr (reply s.num_selected) '=' = some at_eq) :
    jitter_query strtod reply p s
      = Except.ok
          { s with
            sent := s.sent ++ [p.assoc]
            jitter := (strtod (at_eq.drop 1)).1
            num_selected := s.num_selected + 1
            num_valid :=
              if (strtod (at_eq.drop 1)).1 = 0 ∧ (strtod (at_eq.drop 1)).2 = 0 then s.num_valid
              else s.num_valid + 1
            rval :=
              if (strtod (at_eq.drop 1)).1 = 0 ∧ (strtod (at_eq.drop 1)).2 = 0 then s.rval
              else s.rval + (strtod (at_eq.drop 1)).1 } := by
  simp only [jitter_query, h]
  split_ifs <;> rfl

/-- A query leaves `min_peer_sel` alone. -/
theorem jitter_query_min_peer_sel (strtod : List Char → ℚ × Nat) (reply : Nat → List Char)
    (p : ntp_assoc_status_pair) (s s1 : jitter_state)
    (h : jitter_query strtod reply p s = Except.ok s1) :
    s1.min_peer_sel = s.min_peer_sel := by
  cases hc : strchr (reply s.num_selected) '=' with
  | none => rw [jitter_query_of_none strtod reply p s hc] at h; cases h
  | some at_eq =>
    rw [jitter_query_of_some strtod reply p s at_eq hc] at h
    cases h
    rfl

/-- Queries leave `min_peer_sel` alone. -/
theorem query_all_min_peer_sel (strtod : List Char → ℚ × Nat) (reply : Nat → List Char)
    (qs : List ntp_assoc_status_pair) (s s1 : jitter_state)
    (h : query_all strtod reply qs s = Except.ok s1) :
    s1.min_peer_sel = s.min_peer_sel := by
  induction qs generalizing s with
  | nil => simp only [query_all] at h; cases h; rfl
  | cons p ps ih =>
    unfold query_all at h
    cases hq : jitter_query strtod reply p s with
    | error e => rw [hq] at h; cases h
    | ok s2 =>
      rw [hq] at h
      rw [ih s2 h, jitter_query_min_peer_sel strtod reply p s s2 hq]

/-- Queries to a concatenation are queries to the first part, then to the second. -/
theorem query_all_append (strtod : List Char → ℚ × Nat) (reply : Nat → List Char)
    (l1 l2 : List ntp_assoc_status_pair) (s : jitter_state) :
    query_all strtod reply (l1 ++ l2) s
      = match query_all strtod reply l1 s with
        | Except.error e => Except.error e
        | Except.ok s1 => query_all strtod reply l2 s1 := by
  induction l1 generalizing s with
  | nil => simp [query_all]
  | cons p ps ih =>
    simp only [List.cons_append, query_all]
    cases hq : jitter_query strtod reply p s with
    | error e => rfl
    | ok s2 => exact ih s2

/-- One round queries the peers that pass the selection test. -/
theorem jitter_round_eq (strtod : List Char → ℚ × Nat) (reply : Nat → List Char)
    (peers : List ntp_assoc_status_pair) (s : jitter_state) :
    jitter_round strtod reply peers s
      = query_all strtod reply
          (peers.filter (fun p => decide (PEER_SEL p.status ≥ s.min_peer_sel))) s := by
  induction peers generalizing s with
  | nil => simp [jitter_round, query_all]
  | cons p ps ih =>
    unfold jitter_round
    by_cases hsel : PEER_SEL p.status ≥ s.min_peer_sel
    · rw [if_pos hsel, List.filter_cons_of_pos (by simpa using hsel)]
      unfold query_all
      cases hq : jitter_query strtod reply p s with
      | error e => rfl
      | ok s2 =>
        simp only
        rw [ih s2, jitter_query_min_peer_sel strtod reply p s s2 hq]
    · rw [if_neg hsel, List.filter_cons_of_neg (by simpa using hsel)]
      exact ih s

/-- The rounds query, one round after the other, the peers that pass the selection test. -/
theorem jitter_runs_eq (strtod : List Char → ℚ × Nat) (reply : Nat → List Char)
    (peers : List ntp_assoc_status_pair) (n : Nat) (s : jitter_state) :
    jitter_runs strtod reply peers n s
      = query_all strtod reply
          (List.replicate n
            (peers.filter (fun p => decide (PEER_SEL p.status ≥ s.min_peer_sel)))).flatten s := by
  induction n generalizing s with
  | zero => simp [jitter_runs, query_all]
  | succ n ih =>
    unfold jitter_runs
    rw [List.replicate_succ, List.flatten_cons, query_all_append, jitter_round_eq]
    cases hq : query_all strtod reply
        (peers.filter (fun p => decide (PEER_SEL p.status ≥ s.min_peer_sel))) s with
    | error e => rfl
    | ok s2 =>
      simp only
      rw [ih s2, query_all_min_peer_sel strtod reply _ s s2 hq]

/-- Queries that all return have written one request per peer. -/
theorem query_all_sent_ok (strtod : List Char → ℚ × Nat) (reply : Nat → List Char)
    (qs : List ntp_assoc_status_pair) (s s1 : jitter_state)
    (h : query_all strtod reply qs s = Except.ok s1) :
    s1.sent = s.sent ++ qs.map (fun p => p.assoc) := by
  induction qs generalizing s with
  | nil => simp only [query_all] at h; cases h; simp
  | cons p ps ih =>
    unfold query_all at h
    cases hc : strchr (reply s.num_selected) '=' with
    | none => rw [jitter_query_of_none strtod reply p s hc] at h; cases h
    | some at_eq =>
      rw [jitter_query_of_some strtod reply p s at_eq hc] at h
      rw [ih _ h]
      simp

/-- When every reply has a `=`, the queries return and accumulate the valid samples. -/
theorem query_all_samples (strtod : List Char → ℚ × Nat)
    (hstrtod : ∀ str, (strtod str).2 = 0 → (strtod str).1 = 0) (reply : Nat → List Char)
    (qs : List ntp_assoc_status_pair) (s : jitter_state)
    (hreply : ∀ k, k < qs.length → strchr (reply (s.num_selected + k)) '=' ≠ none) :
    ∃ s1, query_all strtod reply qs s = Except.ok s1 ∧
      s1.num_selected = s.num_selected + qs.length ∧
      s1.rval = s.rval + (valid_samples strtod reply s.num_selected qs.length).sum ∧
      s1.num_valid = s.num_valid + (valid_samples strtod reply s.num_selected qs.length).length := by
  induction qs generalizing s with
  | nil => exact ⟨s, rfl, by simp, by simp [valid_samples], by simp [valid_samples]⟩
  | cons p ps ih =>
    have h0 := hreply 0 (by simp)
    rw [Nat.add_zero] at h0
    obtain ⟨at_eq, hc⟩ := Option.ne_none_iff_exists'.mp h0
    unfold query_all
    rw [jitter_query_of_some strtod reply p s at_eq hc]
    simp only
    obtain ⟨s1, hs1, hn, hr, hv⟩ := ih
      { s with
        sent := s.sent ++ [p.assoc]
        jitter := (strtod (at_eq.drop 1)).1
        num_selected := s.num_selected + 1
        num_valid :=
          if (strtod (at_eq.drop 1)).1 = 0 ∧ (strtod (at_eq.drop 1)).2 = 0 then s.num_valid
          else s.num_valid + 1
        rval :=
          if (strtod (at_eq.drop 1)).1 = 0 ∧ (strtod (at_eq.drop 1)).2 = 0 then s.rval
          else s.rval + (strtod (at_eq.drop 1)).1 }
      (by
        intro k hk
        have := hreply (k + 1) (by simpa using hk)
        simpa [Nat.add_assoc, Nat.add_comm 1 k] using this)
    dsimp only at hn hr hv
    refine ⟨s1, hs1, ?_, ?_, ?_⟩
    · rw [hn]; simp only [List.length_cons]; omega
    · rw [hr]
      simp only [valid_samples, List.length_cons, List.range'_succ, List.filterMap_cons]
      simp only [valid_sample, hc]
      by_cases hz : (strtod (at_eq.drop 1)).2 = 0
      · have hv0 := hstrtod _ hz
        simp only [List.drop_one] at hz hv0 ⊢
        simp [hz, hv0]
      · simp only [List.drop_one] at hz ⊢
        simp [hz, add_assoc]
    · rw [hv]
      simp only [valid_samples, List.length_cons, List.range'_succ, List.filterMap_cons]
      simp only [valid_sample, hc]
      by_cases hz : (strtod (at_eq.drop 1)).2 = 0
      · have hv0 := hstrtod _ hz
        simp only [List.drop_one] at hz hv0 ⊢
        simp [hz, hv0]
      · simp only [List.drop_one] at hz ⊢
        simp [hz]
        omega

/-- The selection test after the first loop selects `queried_peers`. -/
theorem queried_peers_eq (peers : List ntp_assoc_status_pair) (s : jitter_state)
    (hs : s.min_peer_sel = PEER_INCLUDED) :
    peers.filter
        (fun p => decide (PEER_SEL p.status ≥ (find_syncsource peers s).min_peer_sel))
      = queried_peers peers := by
  rw [(find_syncsource_spec peers s).1, hs]
  unfold queried_peers PEER_SYNCSOURCE PEER_INCLUDED
  split_ifs <;> rfl

/-- The function `jitter_request` as four rounds of queries to `queried_peers`. -/
theorem jitter_request_eq (strtod : List Char → ℚ × Nat) (count : Nat)
    (peer_at : Nat → ntp_assoc_status_pair) (reply : Nat → List Char) :
    jitter_request strtod count peer_at reply
      = match query_all strtod reply
            (List.replicate AVG_NUM (queried_peers (peer_list count peer_at))).flatten
            (find_syncsource (peer_list count peer_at) jitter_init) with
        | Except.error e => { sent := e.sent, value := none }
        | Except.ok s2 => { sent := s2.sent, value := some (Dbl.div s2.rval s2.num_valid) } := by
  unfold jitter_request
  simp only
  rw [jitter_runs_eq, queried_peers_eq _ _ rfl]

/-- When every reply has a `=`, `jitter_request` returns the quotient of the sum and the number of the valid samples. -/
theorem jitter_request_outcome (strtod : List Char → ℚ × Nat)
    (hstrtod : ∀ str, (strtod str).2 = 0 → (strtod str).1 = 0)
    (count : Nat) (peer_at : Nat → ntp_assoc_status_pair) (reply : Nat → List Char)
    (hreply : ∀ k, k < AVG_NUM * (queried_peers (peer_list count peer_at)).length →
      strchr (reply k) '=' ≠ none) :
    jitter_request strtod count peer_at reply
      = { sent := (List.replicate AVG_NUM
            ((queried_peers (peer_list count peer_at)).map (fun p => p.assoc))).flatten
          value := some (Dbl.div
            (valid_samples strtod reply 0
              (AVG_NUM * (queried_peers (peer_list count peer_at)).length)).sum
            (valid_samples strtod reply 0
              (AVG_NUM * (queried_peers (peer_list count peer_at)).length)).length) } := by
  rw [jitter_request_eq]
  obtain ⟨hmin, hsel, hval, hrval, hsent⟩ :=
    find_syncsource_spec (peer_list count peer_at) jitter_init
  have hlen : (List.replicate AVG_NUM (queried_peers (peer_list count peer_at))).flatten.length
      = AVG_NUM * (queried_peers (peer_list count peer_at)).length := by
    simp [AVG_NUM, List.flatten]
    omega
  obtain ⟨s1, hs1, hn, hr, hv⟩ := query_all_samples strtod hstrtod reply
    (List.replicate AVG_NUM (queried_peers (peer_list count peer_at))).flatten
    (find_syncsource (peer_list count peer_at) jitter_init)
    (by
      intro k hk
      rw [hsel]
      rw [hlen] at hk
      simpa [jitter_init] using hreply k hk)
  have hs := query_all_sent_ok strtod reply _ _ s1 hs1
  rw [hs1]
  simp only
  rw [hsel, hlen] at hr hv
  rw [hs, hr, hv, hsent, hrval, hval]
  simp [jitter_init, AVG_NUM, List.flatten]

/-- Without a peer to query, `jitter_request` returns the quotient `0.0/0`. -/
theorem jitter_request_of_no_query (strtod : List Char → ℚ × Nat) (count : Nat)
    (peer_at : Nat → ntp_assoc_status_pair) (reply : Nat → List Char)
    (h : queried_peers (peer_list count peer_at) = []) :
    jitter_request strtod count peer_at reply = { sent := [], value := some Dbl.nan } := by
  obtain ⟨_, _, hval, hrval, hsent⟩ :=
    find_syncsource_spec (peer_list count peer_at) jitter_init
  rw [jitter_request_eq, h]
  simp only [List.flatten_replicate_nil, query_all]
  rw [hval, hrval, hsent]
  simp [jitter_init, Dbl.div]

/-- `strtod_decimal` returns zero when it consumes nothing. -/
theorem strtod_decimal_zero (str : List Char) (h : (strtod_decimal str).2 = 0) :
    (strtod_decimal str).1 = 0 := by
  unfold strtod_decimal at h ⊢
  simp only at h ⊢
  split_ifs at h ⊢ <;> first | rfl | (simp only at h; omega)

/-- Every reply of `sample_replies` has a `=`. -/
theorem sample_replies_have_eq (k : Nat) : strchr (sample_replies k) '=' ≠ none := by
  match k with
  | 0 => decide
  | 1 => decide
  | 2 => decide
  | n + 3 => simp only [sample_replies]; decide

/-- Every reply of `empty_value_replies` has a `=`. -/
theorem empty_value_replies_have_eq (k : Nat) : strchr (empty_value_replies k) '=' ≠ none := by
  simp only [empty_value_replies]
  decide

/-- The valid samples among the first four of `sample_replies`. -/
theorem valid_samples_sample_replies :
    valid_samples strtod_decimal sample_replies 0 4 = [123 / 1000000, 0, 123 / 1000000] := by
  simp [valid_samples, List.range', valid_sample, sample_replies, strchr, strtod_decimal,
    leading_digits]
  norm_num

/-- Among the statuses 3, 4, 6, 4 only the synchronisation source is queried. -/
theorem queried_peers_with_source :
    queried_peers (peer_list 16 peers_with_source) = [{ assoc := 102, status := 6 }] := by
  decide

/-! ## The claims -/

/-- C1 (the code departs from the claim): without a valid sample `jitter_request` returns the
quotient `0.0/0`, not-a-number, and not the sentinel -1.0; shown for an empty peer list, for
peers that are all below selection status 4, and for a queried peer whose replies all lack
the value. -/
theorem jitter_request_without_valid_sample :
    (∀ (strtod : List Char → ℚ × Nat) (peer_at : Nat → ntp_assoc_status_pair)
        (reply : Nat → List Char),
      jitter_request strtod 0 peer_at reply = { sent := [], value := some Dbl.nan }) ∧
    (∀ (strtod : List Char → ℚ × Nat) (reply : Nat → List Char),
      jitter_request strtod 8 low_tier_peers reply = { sent := [], value := some Dbl.nan }) ∧
    jitter_request strtod_decimal 16 peers_with_source empty_value_replies
      = { sent := [102, 102, 102, 102], value := some Dbl.nan } ∧
    Dbl.nan ≠ Dbl.fin (-1) := by
  refine ⟨?_, ?_, ?_, by simp⟩
  · intro strtod peer_at reply
    exact jitter_request_of_no_query strtod 0 peer_at reply (by simp [peer_list, queried_peers])
  · intro strtod reply
    exact jitter_request_of_no_query strtod 8 low_tier_peers reply (by decide)
  · rw [jitter_request_outcome strtod_decimal strtod_decimal_zero 16 peers_with_source
      empty_value_replies (fun k _ => empty_value_replies_have_eq k)]
    rw [queried_peers_with_source]
    have hv : valid_samples strtod_decimal empty_value_replies 0 4 = [] := by
      simp [valid_samples, List.range', valid_sample, empty_value_replies, strchr,
        strtod_decimal, leading_digits]
    simp only [AVG_NUM, List.length_singleton, Nat.mul_one, hv]
    simp [Dbl.div, List.replicate, List.flatten]

/-- C4: with `max_state` the more severe of its arguments, when jitter is requested and its
value is not the sentinel -1.0, the result is CRITICAL iff offset > ocrit or jitter > jcrit,
otherwise WARNING iff offset > owarn or jitter > jwarn, and otherwise OK; when jitter is not
requested the result is the status of the offset alone and `jitter_request` is not called. -/
theorem main_combined_status (owarn ocrit jwarn jcrit offset : ℚ) (j : Dbl) (hj : j ≠ Dbl.fin (-1)) :
    ((main ⟨owarn, ocrit, true, jwarn, jcrit⟩ offset j).result = STATE_CRITICAL ↔
        (offset > ocrit ∨ j.gt jcrit = true)) ∧
    (¬ (offset > ocrit ∨ j.gt jcrit = true) →
      ((main ⟨owarn, ocrit, true, jwarn, jcrit⟩ offset j).result = STATE_WARNING ↔
        (offset > owarn ∨ j.gt jwarn = true))) ∧
    (¬ (offset > ocrit ∨ j.gt jcrit = true) → ¬ (offset > owarn ∨ j.gt jwarn = true) →
      (main ⟨owarn, ocrit, true, jwarn, jcrit⟩ offset j).result = STATE_OK) ∧
    (main ⟨owarn, ocrit, false, jwarn, jcrit⟩ offset j).result
        = offset_state ⟨owarn, ocrit, false, jwarn, jcrit⟩ offset ∧
    (main ⟨owarn, ocrit, false, jwarn, jcrit⟩ offset j).jitter_requests = 0 := by
  have he : j.eq (-1) = false := by
    cases j with
    | fin q =>
      have : q ≠ -1 := fun h => hj (by rw [h])
      simp [Dbl.eq, this]
    | inf n => rfl
    | nan => rfl
  refine ⟨?_, ?_, ?_, ?_, ?_⟩
  · simp only [main, offset_state, max_state, he]
    by_cases h1 : offset > ocrit <;> by_cases h2 : j.gt jcrit = true <;>
      by_cases h3 : offset > owarn <;> by_cases h4 : j.gt jwarn = true <;>
      simp [h1, h2, h3, h4]
  · intro hn
    simp only [main, offset_state, max_state, he]
    by_cases h1 : offset > ocrit <;> by_cases h2 : j.gt jcrit = true <;>
      by_cases h3 : offset > owarn <;> by_cases h4 : j.gt jwarn = true <;>
      simp [h1, h2, h3, h4] at hn ⊢
  · intro hn hm
    simp only [main, offset_state, max_state, he]
    by_cases h1 : offset > ocrit <;> by_cases h2 : j.gt jcrit = true <;>
      by_cases h3 : offset > owarn <;> by_cases h4 : j.gt jwarn = true <;>
      simp [h1, h2, h3, h4] at hn hm ⊢
  · simp [main]
  · simp [main]

/-- Witness of C4: an offset below its thresholds and a jitter of 1.5 between its thresholds
1 and 2 give WARNING. -/
theorem main_combined_status_witness :
    (main { owarn := 1, ocrit := 2, do_jitter := true, jwarn := 1, jcrit := 2 } 0
        (Dbl.fin (3 / 2))).result = STATE_WARNING :=
  ((main_combined_status 1 2 1 2 0 (Dbl.fin (3 / 2)) (by simp; norm_num)).2.1
    (by simp [Dbl.gt]; norm_num)).mpr (Or.inr (by simp [Dbl.gt]; norm_num))

/-- C5: when every reply read has a `=` (and `strtod` returns zero when it consumes nothing, as
the C standard says), a reply contributes to the sum and to the valid count exactly when
characters are parsed after its first `=` (`valid_sample`), and `jitter_request` returns the
sum of the valid samples divided by their number; with at least one valid sample this is a
finite value, the mean over the valid samples and not over the queries. -/
theorem jitter_request_mean_of_valid_samples (strtod : List Char → ℚ × Nat)
    (hstrtod : ∀ str, (strtod str).2 = 0 → (strtod str).1 = 0)
    (count : Nat) (peer_at : Nat → ntp_assoc_status_pair) (reply : Nat → List Char)
    (hreply : ∀ k, k < AVG_NUM * (queried_peers (peer_list count peer_at)).length →
      strchr (reply k) '=' ≠ none) :
    (jitter_request strtod count peer_at reply).value
        = some (Dbl.div (run_samples strtod count peer_at reply).sum
            (run_samples strtod count peer_at reply).length) ∧
    (run_samples strtod count peer_at reply ≠ [] →
      (jitter_request strtod count peer_at reply).value
        = some (Dbl.fin ((run_samples strtod count peer_at reply).sum
            / ((run_samples strtod count peer_at reply).length : ℚ)))) := by
  unfold run_samples
  rw [jitter_request_outcome strtod hstrtod count peer_at reply hreply]
  refine ⟨rfl, ?_⟩
  intro hne
  have hlen : (valid_samples strtod reply 0
      (AVG_NUM * (queried_peers (peer_list count peer_at)).length)).length ≠ 0 := by
    intro h
    exact hne (List.length_eq_zero.mp h)
  simp only [Dbl.div, if_neg hlen]

/-- Witness of C5: of the four replies `jitter=0.000123`, `jitter=`, `jitter=0` and
`jitter=0.000123` the second is left out and the third counts as zero, so the mean is
0.000246 / 3 = 0.000082. -/
theorem jitter_request_mean_of_valid_samples_witness :
    run_samples strtod_decimal 16 peers_with_source sample_replies
        = [123 / 1000000, 0, 123 / 1000000] ∧
    (jitter_request strtod_decimal 16 peers_with_source sample_replies).value
      = some (Dbl.fin (82 / 1000000)) := by
  have hrun : run_samples strtod_decimal 16 peers_with_source sample_replies
      = [123 / 1000000, 0, 123 / 1000000] := by
    unfold run_samples
    rw [queried_peers_with_source]
    exact valid_samples_sample_replies
  have h := (jitter_request_mean_of_valid_samples strtod_decimal strtod_decimal_zero 16
    peers_with_source sample_replies (fun k _ => sample_replies_have_eq k)).2
  rw [hrun] at h
  refine ⟨hrun, ?_⟩
  rw [h (by simp)]
  norm_num

/-- Counterexample to C6 as stated: for the reply whose timestamps are the representable values
next to originate 100.0, receive 100.05 and transmit 100.06, received at 100.02 with delay
next to 0.02, `calc_offset` is within 0.00002 of 0.025 and so not within 0.001 of 0.015. -/
theorem calc_offset_spec_example_fails :
    |calc_offset 64 sample_reply sample_receipt - 25 / 1000| ≤ 2 / 10 ^ 5 ∧
    ¬ (|calc_offset 64 sample_reply sample_receipt - 15 / 1000| ≤ 1 / 10 ^ 3) := by
  have ho := NTP64asDOUBLE_sample 100 0 (by norm_num)
  have hr := NTP64asDOUBLE_sample 100 214748365 (by norm_num)
  have ht := NTP64asDOUBLE_sample 100 257698038 (by norm_num)
  have hv : calc_offset 64 sample_reply sample_receipt
      = 1 / 2 * ((100 + 1 / 200000000 + 257698038 / 4294967296 - (100 + 20000 / 1000000))
          + (100 + 1 / 200000000 + 214748365 / 4294967296 - (100 + 1 / 200000000)))
        - 1311 / 65536 := by
    simp only [calc_offset, sample_reply, sample_receipt, TVasDOUBLE, NTP32asDOUBLE]
    rw [ho, hr, ht]
    norm_num
  rw [hv]
  constructor
  · rw [abs_le]; constructor <;> norm_num
  · rw [abs_le]; norm_num

/-- C6 (amended): `calc_offset` is 0.5*((peer_transmit - local_receive) + (peer_receive -
originate)) - round_trip_delay, with the timestamps decoded by `NTP64asDOUBLE`, the local
receive time seconds + microseconds/10^6 and the delay (first 16 bits) + (last 16 bits)/65536;
with originate 100.0, receive 100.05, transmit 100.06 (each to within 10^-8), local receive
100.02 and delay 0.02 (to within 10^-5) the result is 0.025 to within 0.00002. -/
theorem calc_offset_formula (W : Nat) (m : ntp_message) (t : timeval) :
    calc_offset W m t
        = (1 / 2) * ((NTP64asDOUBLE W m.txts - ((t.tv_sec : ℚ) + (t.tv_usec : ℚ) / 10 ^ 6))
            + (NTP64asDOUBLE W m.rxts - NTP64asDOUBLE W m.origts))
          - ((m.rtdelay.l16 : ℚ) + (m.rtdelay.r16 : ℚ) / 65536) ∧
    (|NTP64asDOUBLE W m.origts - 100| ≤ 1 / 10 ^ 8 →
      |NTP64asDOUBLE W m.rxts - 10005 / 100| ≤ 1 / 10 ^ 8 →
      |NTP64asDOUBLE W m.txts - 10006 / 100| ≤ 1 / 10 ^ 8 →
      TVasDOUBLE t = 10002 / 100 →
      |NTP32asDOUBLE m.rtdelay - 2 / 100| ≤ 1 / 10 ^ 5 →
      |calc_offset W m t - 25 / 1000| ≤ 2 / 10 ^ 5) := by
  constructor
  · simp only [calc_offset, TVasDOUBLE, NTP32asDOUBLE]
    ring
  · intro h1 h2 h3 h4 h5
    simp only [calc_offset]
    rw [h4]
    rw [abs_le] at h1 h2 h3 h5 ⊢
    constructor <;> linarith [h1.1, h1.2, h2.1, h2.2, h3.1, h3.2, h5.1, h5.2]

/-- Witness of C6 (amended): `sample_reply` received at `sample_receipt` meets the conditions
of the example. -/
theorem calc_offset_formula_witness : |calc_offset 64 sample_reply sample_receipt - 25 / 1000| ≤ 2 / 10 ^ 5 :=
  (calc_offset_formula 64 sample_reply sample_receipt).2
    (by simp only [sample_reply]; rw [NTP64asDOUBLE_sample 100 0 (by norm_num)]; norm_num [abs_le])
    (by simp only [sample_reply]; rw [NTP64asDOUBLE_sample 100 _ (by norm_num)]; rw [abs_le]; constructor <;> norm_num)
    (by simp only [sample_reply]; rw [NTP64asDOUBLE_sample 100 _ (by norm_num)]; rw [abs_le]; constructor <;> norm_num)
    (by norm_num [sample_receipt, TVasDOUBLE])
    (by norm_num [sample_reply, NTP32asDOUBLE, abs_le])

/-- C7: `offset_request` returns the sum of the offset samples of exactly four exchanges divided
by 4, whatever the samples are; the samples 0.01, 0.02, 0.03, 0.04 give 0.025 and four equal
samples give that sample. -/
theorem offset_request_mean_of_four (W : Nat) (exchange : Nat → ntp_message × timeval) :
    offset_request W exchange
        = (calc_offset W (exchange 0).1 (exchange 0).2
            + calc_offset W (exchange 1).1 (exchange 1).2
            + calc_offset W (exchange 2).1 (exchange 2).2
            + calc_offset W (exchange 3).1 (exchange 3).2) / 4 ∧
    (calc_offset W (exchange 0).1 (exchange 0).2 = 1 / 100 →
      calc_offset W (exchange 1).1 (exchange 1).2 = 2 / 100 →
      calc_offset W (exchange 2).1 (exchange 2).2 = 3 / 100 →
      calc_offset W (exchange 3).1 (exchange 3).2 = 4 / 100 →
      offset_request W exchange = 25 / 1000) ∧
    (∀ s : ℚ, (∀ i, i < 4 → calc_offset W (exchange i).1 (exchange i).2 = s) →
      offset_request W exchange = s) := by
  have h : offset_request W exchange
        = (calc_offset W (exchange 0).1 (exchange 0).2
            + calc_offset W (exchange 1).1 (exchange 1).2
            + calc_offset W (exchange 2).1 (exchange 2).2
            + calc_offset W (exchange 3).1 (exchange 3).2) / 4 := by
    unfold offset_request AVG_NUM
    rw [offset_loop_four]
    norm_num
  refine ⟨h, ?_, ?_⟩
  · intro h0 h1 h2 h3
    rw [h, h0, h1, h2, h3]
    norm_num
  · intro s hs
    rw [h, hs 0 (by norm_num), hs 1 (by norm_num), hs 2 (by norm_num), hs 3 (by norm_num)]
    ring

/-- Witness of C7: the four exchanges of `steady_exchange` have the samples 0.01, 0.02, 0.03
and 0.04 and give 0.025. -/
theorem offset_request_mean_of_four_witness : offset_request 64 steady_exchange = 25 / 1000 :=
  (offset_request_mean_of_four 64 steady_exchange).2.1
    (by rw [steady_sample]; norm_num) (by rw [steady_sample]; norm_num)
    (by rw [steady_sample]; norm_num) (by rw [steady_sample]; norm_num)

/-- C10 (the code departs from the claim): `SIZEOF_NTPCM` is 12 + count rounded up to a multiple
of 4 only when count is zero or not a multiple of 4; for a non-zero multiple of 4 it is 4 more,
and with the count 468 that `jitter_request` sets before each read it is 484, not 480. -/
theorem SIZEOF_NTPCM_padding :
    (∀ m : ntp_control_message,
      SIZEOF_NTPCM m =
        if m.count ≠ 0 ∧ m.count % 4 = 0 then padded_wire_size m.count + 4
        else padded_wire_size m.count) ∧
    (∀ m : ntp_control_message, SIZEOF_NTPCM { m with count := MAX_CM_SIZE } = 484) ∧
    padded_wire_size MAX_CM_SIZE = 480 := by
  refine ⟨?_, ?_, by decide⟩
  · intro m
    unfold SIZEOF_NTPCM padded_wire_size
    split_ifs <;> omega
  · intro m
    simp [SIZEOF_NTPCM, MAX_CM_SIZE]

/-! ## Lemmas on the wire messages -/

/-- The flags byte that `setup_request` builds from the zero byte. -/
theorem setup_request_flags (p : ntp_message) (now : timeval) :
    (setup_request p now).flags = MODE_SET (VN_SET (LI_SET 0 LI_ALARM) 4) MODE_CLIENT := rfl

/-- The flags byte that `setup_control_request` builds from the zero byte. -/
theorem setup_control_request_flags (p : ntp_control_message) (opcode seq : Nat) :
    (setup_control_request p opcode seq).flags
      = MODE_SET (VN_SET (LI_SET 0 LI_NOWARNING) VN_RESERVED) MODE_CONTROLMSG := rfl

/-- A byte masked with `OP_MASK` has none of the response, error and more bits. -/
theorem rem_bits_clear (x : Nat) :
    (x &&& OP_MASK) &&& REM_RESP = 0 ∧ (x &&& OP_MASK) &&& REM_ERROR = 0 ∧
      (x &&& OP_MASK) &&& REM_MORE = 0 := by
  have h1 : OP_MASK &&& REM_RESP = 0 := by decide
  have h2 : OP_MASK &&& REM_ERROR = 0 := by decide
  have h3 : OP_MASK &&& REM_MORE = 0 := by decide
  rw [Nat.and_assoc, Nat.and_assoc, Nat.and_assoc, h1, h2, h3]
  simp

/-- The op byte that `setup_control_request` builds is the masked opcode. -/
theorem setup_control_request_op (p : ntp_control_message) (opcode seq : Nat)
    (ho : opcode < 256) :
    (setup_control_request p opcode seq).op = opcode &&& OP_MASK := by
  have h : (setup_control_request p opcode seq).op = OP_SET 0 (opcode % 256) := rfl
  rw [h]
  unfold OP_SET
  rw [Nat.zero_or, Nat.mod_eq_of_lt ho]
  have hle : opcode &&& OP_MASK ≤ OP_MASK := Nat.and_le_right
  have hm : OP_MASK = 31 := rfl
  rw [hm] at hle ⊢
  exact Nat.mod_eq_of_lt (by omega)

/-! ## The claims on the wire messages, the buffers and the offset status -/

/-- C11: for every prior content of the message and every time `now`, the request built by
`setup_request` has the flags byte 0xE3, from which `LI`, `VN` and `MODE` recover 3, 4 and 3,
poll 4, precision -6 (the byte 0xFA), stratum, reference identifier, reference, originate and
receive timestamps zero, and the transmit timestamp `TVtoNTP64 now`. -/
theorem setup_request_fields (p : ntp_message) (now : timeval) :
    (setup_request p now).flags = 0xE3 ∧
    LI (setup_request p now).flags = 3 ∧
    VN (setup_request p now).flags = 4 ∧
    MODE (setup_request p now).flags = 3 ∧
    (setup_request p now).poll = 4 ∧
    (setup_request p now).precision = -6 ∧
    (setup_request p now).precision % 256 = 0xFA ∧
    (setup_request p now).stratum = 0 ∧
    (setup_request p now).refid = 0 ∧
    (setup_request p now).refts = { l32 := 0, r32 := 0 } ∧
    (setup_request p now).origts = { l32 := 0, r32 := 0 } ∧
    (setup_request p now).rxts = { l32 := 0, r32 := 0 } ∧
    (setup_request p now).txts = TVtoNTP64 now := by
  have hf : MODE_SET (VN_SET (LI_SET 0 LI_ALARM) 4) MODE_CLIENT = 0xE3 := by decide
  rw [setup_request_flags, hf]
  exact ⟨rfl, by decide, by decide, by decide, rfl, rfl, rfl, rfl, rfl, rfl, rfl, rfl, rfl⟩

/-- Counterexample to C12 as stated: in the request built over `sample_reply` at the time
`sample_receipt` the round-trip delay and the root dispersion decode to 1 second, not to
1/65536 second. -/
theorem setup_request_delay_not_one_tick :
    NTP32asDOUBLE (setup_request sample_reply sample_receipt).rtdelay = 1 ∧
    NTP32asDOUBLE (setup_request sample_reply sample_receipt).rtdisp = 1 ∧
    NTP32asDOUBLE (setup_request sample_reply sample_receipt).rtdelay ≠ 1 / 65536 ∧
    NTP32asDOUBLE (setup_request sample_reply sample_receipt).rtdisp ≠ 1 / 65536 := by
  have h1 : (setup_request sample_reply sample_receipt).rtdelay = { l16 := 1, r16 := 0 } := rfl
  have h2 : (setup_request sample_reply sample_receipt).rtdisp = { l16 := 1, r16 := 0 } := rfl
  rw [h1, h2]
  norm_num [NTP32asDOUBLE]

/-- C12 (amended): in every request built by `setup_request` the round-trip delay field and the
root dispersion field each hold the integer half 1 and the fraction half 0, that is 65536
ticks of the 32-bit fixed-point format, and decode to 1 second. -/
theorem setup_request_delay_one_second (p : ntp_message) (now : timeval) :
    (setup_request p now).rtdelay = { l16 := 1, r16 := 0 } ∧
    (setup_request p now).rtdisp = { l16 := 1, r16 := 0 } ∧
    NTP32asDOUBLE (setup_request p now).rtdelay = 1 ∧
    NTP32asDOUBLE (setup_request p now).rtdisp = 1 ∧
    NTP32asDOUBLE (setup_request p now).rtdelay = 65536 * (1 / 65536) := by
  have h1 : (setup_request p now).rtdelay = { l16 := 1, r16 := 0 } := rfl
  have h2 : (setup_request p now).rtdisp = { l16 := 1, r16 := 0 } := rfl
  rw [h1, h2]
  norm_num [NTP32asDOUBLE]

/-- C13: for every 8-bit opcode, every 16-bit sequence number and every prior content of the
message, the request built by `setup_control_request` has the flags byte 0x16 (leap indicator
0, version 2, mode 6), the op byte opcode & 0x1F with the response, error and more bits
clear, the sequence field equal to the sequence number, status, association, offset and count
zero and 468 data bytes that are all zero; its `SIZEOF_NTPCM` is 12. -/
theorem setup_control_request_fields (p : ntp_control_message) (opcode seq : Nat)
    (ho : opcode < 256) (hs : seq < 65536) :
    (setup_control_request p opcode seq).flags = 0x16 ∧
    LI (setup_control_request p opcode seq).flags = 0 ∧
    VN (setup_control_request p opcode seq).flags = 2 ∧
    MODE (setup_control_request p opcode seq).flags = 6 ∧
    (setup_control_request p opcode seq).op = opcode &&& 0x1F ∧
    (setup_control_request p opcode seq).op &&& 0x80 = 0 ∧
    (setup_control_request p opcode seq).op &&& 0x40 = 0 ∧
    (setup_control_request p opcode seq).op &&& 0x20 = 0 ∧
    (setup_control_request p opcode seq).seq = seq ∧
    (setup_control_request p opcode seq).status = 0 ∧
    (setup_control_request p opcode seq).assoc = 0 ∧
    (setup_control_request p opcode seq).offset = 0 ∧
    (setup_control_request p opcode seq).count = 0 ∧
    (setup_control_request p opcode seq).data.length = 468 ∧
    (∀ b ∈ (setup_control_request p opcode seq).data, b = 0) ∧
    SIZEOF_NTPCM (setup_control_request p opcode seq) = 12 := by
  have hf : MODE_SET (VN_SET (LI_SET 0 LI_NOWARNING) VN_RESERVED) MODE_CONTROLMSG = 0x16 := by
    decide
  have hop := setup_control_request_op p opcode seq ho
  have hrem := rem_bits_clear opcode
  have hseq : (setup_control_request p opcode seq).seq = seq % 65536 := rfl
  have hdata : (setup_control_request p opcode seq).data = List.replicate MAX_CM_SIZE 0 := rfl
  have hcount : (setup_control_request p opcode seq).count = 0 := rfl
  rw [setup_control_request_flags, hf, hop, hseq, hdata]
  refine ⟨rfl, by decide, by decide, by decide, rfl, hrem.1, hrem.2.1, hrem.2.2,
    Nat.mod_eq_of_lt hs, rfl, rfl, rfl, rfl, by rw [List.length_replicate]; rfl, ?_, ?_⟩
  · intro b hb
    exact (List.mem_replicate.mp hb).2
  · simp [SIZEOF_NTPCM, hcount]

/-- Witness of C13: the READSTAT request set up over a message that held a READVAR request
has the op byte 1. -/
theorem setup_control_request_fields_witness :
    (setup_control_request (readvar_request (readstat_request
        { flags := 1, op := 2, seq := 3, status := 4, assoc := 5, offset := 6, count := 7,
          data := [] }) 77) OP_READSTAT 1).op = 1 := by
  have h := (setup_control_request_fields (readvar_request (readstat_request
        { flags := 1, op := 2, seq := 3, status := 4, assoc := 5, offset := 6, count := 7,
          data := [] }) 77) OP_READSTAT 1 (by decide) (by decide)).2.2.2.2.1
  rw [h]
  decide

/-- C14 (the code departs from the claim): the number of peer entries that `jitter_request`
takes is the count field divided by 4, whatever the count is: 16383 for the count 65535 and
118 for the count 472, more than the 117 entries that lie inside the data field; the entry
number 117 lies outside. -/
theorem jitter_request_peer_count_unbounded :
    (∀ (count : Nat) (peer_at : Nat → ntp_assoc_status_pair),
      (peer_list count peer_at).length = count / 4) ∧
    (∀ peer_at : Nat → ntp_assoc_status_pair,
      (peer_list 65535 peer_at).length = 16383 ∧ (peer_list 472 peer_at).length = 118) ∧
    (65535 < 2 ^ 16 ∧ ¬ (16383 ≤ 117)) ∧
    entry_in_data 116 = true ∧ entry_in_data 117 = false := by
  refine ⟨?_, ?_, by decide, by decide, by decide⟩
  · intro count peer_at
    simp [peer_list]
  · intro peer_at
    simp [peer_list]

/-- C15 (the code departs from the claim): a reply without a `=` does not drop the sample and
continue; `strchr` returns `NULL`, `strtod` is called on `NULL + 1`, and the run ends. With
the statuses 3, 4, 6, 4 and replies `jitter` the function ends after its first query without
a value, and so does every query in every state. -/
theorem jitter_request_fails_without_equals_sign :
    (∀ strtod : List Char → ℚ × Nat,
      jitter_request strtod 16 peers_with_source no_value_replies
        = { sent := [102], value := none }) ∧
    (∀ (strtod : List Char → ℚ × Nat) (p : ntp_assoc_status_pair) (s : jitter_state),
      jitter_query strtod no_value_replies p s
        = Except.error { s with sent := s.sent ++ [p.assoc] }) := by
  have hn : ∀ k, strchr (no_value_replies k) '=' = none := fun _ => by
    simp only [no_value_replies]
    decide
  constructor
  · intro strtod
    have hsent := (find_syncsource_spec (peer_list 16 peers_with_source) jitter_init).2.2.2.2
    rw [jitter_request_eq, queried_peers_with_source]
    simp only [AVG_NUM, List.replicate, List.flatten, List.singleton_append]
    unfold query_all
    rw [jitter_query_of_none strtod no_value_replies _ _ (hn _)]
    simp only [hsent]
    rfl
  · intro strtod p s
    simp only [jitter_query, hn]

/-- C16 (the code departs from the claim): the length that `jitter_request` passes to each `read`,
`SIZEOF_NTPCM` with the count 468, is 484, which exceeds the 480 bytes of the structure
`ntp_control_message` that is filled, for the READSTAT reply and for each READVAR reply. -/
theorem receive_length_exceeds_buffer :
    (∀ req : ntp_control_message, receive_length req = 484) ∧
    sizeof_ntp_control_message = 480 ∧
    (∀ req : ntp_control_message,
      sizeof_ntp_control_message < receive_length (readstat_request req)) ∧
    (∀ (req : ntp_control_message) (assoc : Nat),
      sizeof_ntp_control_message < receive_length (readvar_request req assoc)) := by
  have h : ∀ req : ntp_control_message, receive_length req = 484 := by
    intro req
    simp [receive_length, SIZEOF_NTPCM, MAX_CM_SIZE]
  refine ⟨h, by decide, ?_, ?_⟩
  · intro req
    rw [h]
    decide
  · intro req assoc
    rw [h]
    decide

/-- C17: for thresholds owarn <= ocrit the status of the offset alone is CRITICAL iff offset >
ocrit, WARNING iff owarn < offset <= ocrit, and OK for every offset <= owarn; so every
negative offset is OK when owarn >= 0. It is the result of `main` when jitter is not
requested. -/
theorem offset_state_one_sided (c : config) (offset : ℚ) (h : c.owarn ≤ c.ocrit) :
    (offset_state c offset = STATE_CRITICAL ↔ offset > c.ocrit) ∧
    (offset_state c offset = STATE_WARNING ↔ (c.owarn < offset ∧ offset ≤ c.ocrit)) ∧
    (offset ≤ c.owarn → offset_state c offset = STATE_OK) ∧
    (0 ≤ c.owarn → offset < 0 → offset_state c offset = STATE_OK) ∧
    (∀ j : Dbl, (main { c with do_jitter := false } offset j).result = offset_state c offset) := by
  unfold offset_state
  refine ⟨?_, ?_, ?_, ?_, ?_⟩
  · by_cases h1 : offset > c.ocrit <;> by_cases h2 : offset > c.owarn <;> simp [h1, h2]
  · constructor
    · intro hw
      split_ifs at hw with h1 h2
      exact ⟨h2, not_lt.mp h1⟩
    · rintro ⟨h2, h1⟩
      rw [if_neg (not_lt.mpr h1), if_pos h2]
  · intro hle
    have h2 : ¬ offset > c.owarn := not_lt.mpr hle
    have h1 : ¬ offset > c.ocrit := not_lt.mpr (le_trans hle h)
    simp [h1, h2]
  · intro h0 hneg
    have hle : offset ≤ c.owarn := le_of_lt (lt_of_lt_of_le hneg h0)
    have h2 : ¬ offset > c.owarn := not_lt.mpr hle
    have h1 : ¬ offset > c.ocrit := not_lt.mpr (le_trans hle h)
    simp [h1, h2]
  · intro j
    simp [main, offset_state]

/-- Witness of C17: with the thresholds 1 and 2 the offset of minus a million seconds is OK. -/
theorem offset_state_one_sided_witness :
    offset_state { owarn := 1, ocrit := 2, do_jitter := false, jwarn := 0, jcrit := 0 }
        (-1000000) = STATE_OK :=
  (offset_state_one_sided
    { owarn := 1, ocrit := 2, do_jitter := false, jwarn := 0, jcrit := 0 } (-1000000)
    (by norm_num)).2.2.2.1 (by norm_num) (by norm_num)

end CheckNtp
